import Mathlib

/-!
Shallow embedding of the contract-extraction and risk-scoring core of
`nspa_pdf_processor.py` (class `NSPAPDFProcessor`), together with theorems
checking the specification's claims about it.

Conventions:
* Python strings are `String`; a possibly-`None` table cell is `Option String`.
* Python float arithmetic inside `assess_contract_risk` and
  `estimate_contract_value` is modelled with exact rationals `ℚ`; the decimal
  literals of the source (`1.2`, `1.3`, `0.7`, ...) are exact here.
* Python `int(x)` truncation for the nonnegative values produced by
  `estimate_contract_value` coincides with `⌊x⌋`.
* The two uses of randomness — `np.random.uniform(0.7, 1.5)` and the
  two-element `np.random.choice` — are made explicit parameters: a rational
  `variation` and a boolean `pickFirst` selecting the first of the two
  candidate impact strings. Theorems quantify over them.
-/

namespace NSPA

/-- Substring test on character lists: does `needle` occur contiguously in the
second list?  This models Python's `needle in haystack` for strings. -/
def containsSub (needle : List Char) : List Char → Bool
  | [] => needle.isPrefixOf []
  | c :: rest => needle.isPrefixOf (c :: rest) || containsSub needle rest

/-- Python's `needle in hay` for strings. -/
def pyIn (needle hay : String) : Bool :=
  containsSub needle.data hay.data

/-- Python's `s.upper()`, modelled character by character (the titles and
keywords of this program are ASCII). -/
def pyUpper (s : String) : String :=
  ⟨s.data.map Char.toUpper⟩

/-- Python's `s.strip()`: drop leading and trailing whitespace. -/
def pyStrip (s : String) : String :=
  ⟨((s.data.dropWhile Char.isWhitespace).reverse.dropWhile
      Char.isWhitespace).reverse⟩

/-- The ordered category table of `categorize_contract_type`
(Python dicts iterate in insertion order). -/
def categories : List (String × List String) :=
  [ ("Ammunition", ["CARTRIDGE", "PROJECTILE", "MORTAR", "BOMBS", "MUNITION"]),
    ("Logistics_Support", ["LOGISTIC", "SUPPORT", "MAINTENANCE", "SUPPLY"]),
    ("IT_Infrastructure", ["MICROSOFT", "INFRASTRUCTURE", "SOFTWARE", "SYSTEM"]),
    ("Medical_Equipment", ["MEDICAL", "SURGICAL", "HEATER", "INFUSION"]),
    ("Communications", ["COMMUNICATION", "SATELLITE", "CIS", "SHELTER"]),
    ("Vehicles_Transport", ["VEHICLE", "TRUCK", "TRAILER", "CARGO"]),
    ("Construction", ["CONSTRUCTION", "BUILDING", "WAREHOUSE"]),
    ("Training", ["TRAINING", "SIMULATOR", "SERVICES"]),
    ("Fuel_Energy", ["FUEL", "GENERATOR", "POWER", "UPS"]),
    ("Defense_Systems", ["DEFENSE", "SECURITY", "GBAD", "RADAR"]) ]

/-- Does the keyword set of a category entry hit the (already uppercased)
title?  Models `any(keyword in title_upper for keyword in keywords)`. -/
def categoryMatches (kws : List String) (titleUpper : String) : Bool :=
  kws.any (fun k => pyIn k titleUpper)

/-- The `for category, keywords in categories.items()` loop of
`categorize_contract_type`: first matching category wins, else `'Other'`. -/
def findCategory (titleUpper : String) : List (String × List String) → String
  | [] => "Other"
  | (c, kws) :: rest =>
      if categoryMatches kws titleUpper then c else findCategory titleUpper rest

/-- `NSPAPDFProcessor.categorize_contract_type`. -/
def categorize_contract_type (title : String) : String :=
  findCategory (pyUpper title) categories

/-- The multiplier table of `estimate_contract_value`, in source order. -/
def multipliers : List (String × ℕ) :=
  [ ("SATELLITE", 50), ("SIMULATOR", 20), ("CONSTRUCTION", 15),
    ("AIRCRAFT", 30), ("AMMUNITION", 5), ("MEDICAL", 3),
    ("VEHICLE", 8), ("FUEL", 10), ("TRAINING", 4) ]

/-- The multiplier scan of `estimate_contract_value`:
`multiplier = 1`, then `multiplier = max(multiplier, mult)` for each matching
keyword. -/
def contractMultiplier (title : String) : ℕ :=
  multipliers.foldl
    (fun acc p => if pyIn p.1 (pyUpper title) then max acc p.2 else acc) 1

/-- `NSPAPDFProcessor.estimate_contract_value`, with the random draw
`variation = np.random.uniform(0.7, 1.5)` as an explicit parameter.
The source's `contract_type` argument is never used by the body.
`int(base_value * multiplier * variation)` truncates toward zero, which is
`⌊·⌋` for the nonnegative products arising here. -/
def estimate_contract_value (title : String) (contract_type : String)
    (variation : ℚ) : ℤ :=
  ⌊(1000000 : ℚ) * contractMultiplier title * variation⌋

/-- `NSPAPDFProcessor.count_bidders`. -/
def count_bidders (companies_text : String) : ℕ :=
  if companies_text = "" then 0
  else max 1 (min ((companies_text.data.filter (· = '\n')).length + 1) 10)

/-- The `type_risk` dictionary lookup of `assess_contract_risk`
(`.get(contract_type, 1.0)`). -/
def typeRisk (contract_type : String) : ℚ :=
  if contract_type = "Communications" then 1.5
  else if contract_type = "IT_Infrastructure" then 1.4
  else if contract_type = "Defense_Systems" then 1.6
  else if contract_type = "Construction" then 1.2
  else if contract_type = "Ammunition" then 1.1
  else if contract_type = "Medical_Equipment" then 1.0
  else if contract_type = "Logistics_Support" then 0.9
  else 1.0

/-- The `complexity_keywords` list of `assess_contract_risk`. -/
def complexity_keywords : List String :=
  ["SATELLITE", "SIMULATOR", "CYBER", "AI", "ADVANCED"]

/-- `complexity_factor = 1.3 if any(kw in title.upper() ...) else 1.0`. -/
def complexityFactor (title : String) : ℚ :=
  if complexity_keywords.any (fun k => pyIn k (pyUpper title)) then 1.3 else 1.0

/-- `value_risk = min(4, value / 10000000)`. -/
def valueRisk (value : ℤ) : ℚ :=
  min 4 ((value : ℚ) / 10000000)

/-- `competition_risk = 4 if bidder_count <= 1 else max(1, 5 - bidder_count)`. -/
def competitionRisk (bidder_count : ℕ) : ℚ :=
  if bidder_count ≤ 1 then 4 else max 1 (5 - (bidder_count : ℚ))

/-- `base_risk = (value_risk + competition_risk) * type_risk *
complexity_factor`. -/
def baseRisk (title contract_type : String) (value : ℤ) (bidder_count : ℕ) : ℚ :=
  (valueRisk value + competitionRisk bidder_count) * typeRisk contract_type *
    complexityFactor title

/-- The likelihood/impact assignment of `assess_contract_risk`: four threshold
branches on `base_risk`, each drawing the impact from a two-element
`np.random.choice`; `pickFirst` selects the first element of that pair. -/
def likelihoodImpact (br : ℚ) (pickFirst : Bool) : String × String :=
  if br ≤ 3 then ("Low", if pickFirst then "Low" else "Medium")
  else if br ≤ 6 then ("Medium", if pickFirst then "Medium" else "High")
  else if br ≤ 9 then ("High", if pickFirst then "High" else "Very High")
  else ("Very High", if pickFirst then "High" else "Very High")

/-- The `risk_mapping` dictionary `{'Low': 1, 'Medium': 2, 'High': 3,
'Very High': 4}`; the source only ever looks up those four keys. -/
def riskMapping (s : String) : ℕ :=
  if s = "Low" then 1
  else if s = "Medium" then 2
  else if s = "High" then 3
  else if s = "Very High" then 4
  else 0

/-- The record returned by `assess_contract_risk`. -/
structure RiskAssessment where
  likelihood : String
  impact : String
  score : ℕ
  complexity : String
  deriving DecidableEq, Repr

/-- `NSPAPDFProcessor.assess_contract_risk`, with the impact draw made an
explicit boolean parameter. -/
def assess_contract_risk (title contract_type : String) (value : ℤ)
    (bidder_count : ℕ) (pickFirst : Bool) : RiskAssessment :=
  let li := likelihoodImpact (baseRisk title contract_type value bidder_count)
      pickFirst
  { likelihood := li.1
    impact := li.2
    score := riskMapping li.1 * riskMapping li.2
    complexity :=
      if 1.2 < complexityFactor title then "High"
      else if 1.2 < typeRisk contract_type then "Medium"
      else "Low" }

/-- `NSPAPDFProcessor.is_multinational_contract`. -/
def is_multinational_contract (companies_text : String) : Bool :=
  if companies_text = "" then false
  else
    let countries := ["Germany", "Italy", "France", "Spain", "USA", "Canada",
      "Norway", "Netherlands", "Belgium", "Turkey", "Poland", "United Kingdom"]
    1 < (countries.filter (fun c => pyIn c companies_text)).length

/-- `NSPAPDFProcessor.assess_technology_level`. -/
def assess_technology_level (title : String) : String :=
  let high_tech := ["SATELLITE", "AI", "CYBER", "ADVANCED", "SIMULATOR", "RADAR"]
  let medium_tech := ["ELECTRONIC", "COMMUNICATION", "SOFTWARE", "SYSTEM"]
  if high_tech.any (fun k => pyIn k (pyUpper title)) then "High"
  else if medium_tech.any (fun k => pyIn k (pyUpper title)) then "Medium"
  else "Low"

/-- `str(cell).strip() if cell else ""` — a `None` or empty cell becomes `""`,
any other cell is trimmed. -/
def cleanCell : Option String → String
  | none => ""
  | some s => pyStrip s

/-- The `ContractRecord` dictionary built by `extract_contract_details`. -/
structure ContractRecord where
  contract_id : String
  rfp_title : String
  contract_type : String
  closing_date : String
  companies : String
  country : String
  bidder_count : ℕ
  estimated_value_eur : ℤ
  year : ℕ
  risk_likelihood : String
  risk_impact : String
  risk_score : ℕ
  complexity_category : String
  is_multi_national : Bool
  technology_level : String
  deriving DecidableEq, Repr

/-- `NSPAPDFProcessor.extract_contract_details`.  Fallible extraction returns
`Option`: every rejection path of the source (`len(cleaned_row) < 4`, empty or
header title, `'BID OPENING'` marker, and the blanket `except` clause) returns
`None`; the random draws of the value estimate and the impact choice are
explicit parameters. -/
def extract_contract_details (row : List (Option String)) (file_year : ℕ)
    (variation : ℚ) (pickFirst : Bool) : Option ContractRecord :=
  let cleaned_row := row.map cleanCell
  if cleaned_row.length < 4 then none
  else
    let collective_num := cleaned_row.getD 0 ""
    let rfp_title := cleaned_row.getD 1 ""
    let closing_date := cleaned_row.getD 2 ""
    let companies := cleaned_row.getD 3 ""
    let country := cleaned_row.getD 4 ""
    if rfp_title = "" || pyUpper rfp_title = "RFP TITLE" ||
        pyUpper rfp_title = "TITLE" || pyIn "BID OPENING" (pyUpper rfp_title) then
      none
    else
      let contract_type := categorize_contract_type rfp_title
      let estimated_value := estimate_contract_value rfp_title contract_type
        variation
      let bidder_count := count_bidders companies
      let ra := assess_contract_risk rfp_title contract_type estimated_value
        bidder_count pickFirst
      some { contract_id := collective_num
             rfp_title := rfp_title
             contract_type := contract_type
             closing_date := closing_date
             companies := companies
             country := country
             bidder_count := bidder_count
             estimated_value_eur := estimated_value
             year := file_year
             risk_likelihood := ra.likelihood
             risk_impact := ra.impact
             risk_score := ra.score
             complexity_category := ra.complexity
             is_multi_national := is_multinational_contract companies
             technology_level := assess_technology_level rfp_title }

/-- The data-row loop of `parse_nspa_contract_data`
(`for row in table[header_row + 1:]`): a row that is empty or has fewer than
4 cells is skipped, otherwise `extract_contract_details` runs and a `None`
result is skipped.  The per-row random draws are supplied by the oracle
`rnd`. -/
def processDataRows (rnd : List (Option String) → ℚ × Bool) (file_year : ℕ) :
    List (List (Option String)) → List ContractRecord
  | [] => []
  | row :: rest =>
      if row.length < 4 then processDataRows rnd file_year rest
      else
        match extract_contract_details row file_year (rnd row).1 (rnd row).2 with
        | some c => c :: processDataRows rnd file_year rest
        | none => processDataRows rnd file_year rest

/-- Number of non-empty cells of a row after cleaning — the quantity the
specification's parser constraint is phrased in terms of. -/
def countNonEmptyCells (row : List (Option String)) : ℕ :=
  ((row.map cleanCell).filter (fun s => s ≠ "")).length

/-- Stated from the specification: the two-element impact pool the sampler may
draw from, as a function of the likelihood tier. -/
def allowedImpacts (likelihood : String) : List String :=
  if likelihood = "Low" then ["Low", "Medium"]
  else if likelihood = "Medium" then ["Medium", "High"]
  else if likelihood = "High" then ["High", "Very High"]
  else ["High", "Very High"]

/-- Stated from the specification: the multiplier is the maximum multiplier of
the table entries whose keyword occurs in the uppercased title, and 1 when no
keyword occurs.  To be compared with the source's running-maximum scan
`contractMultiplier`. -/
def specMaxMultiplier (title : String) : ℕ :=
  if ((multipliers.filter
        (fun p => pyIn p.1 (pyUpper title))).map Prod.snd).isEmpty then 1
  else ((multipliers.filter
        (fun p => pyIn p.1 (pyUpper title))).map Prod.snd).foldr max 0

/-- Every likelihood/impact pair the threshold logic can emit. -/
lemma likelihoodImpact_mem (br : ℚ) (pick : Bool) :
    likelihoodImpact br pick ∈
      [("Low", "Low"), ("Low", "Medium"), ("Medium", "Medium"),
       ("Medium", "High"), ("High", "High"), ("High", "Very High"),
       ("Very High", "High"), ("Very High", "Very High")] := by
  unfold likelihoodImpact
  split_ifs <;> cases pick <;> simp

/-- The likelihood field of `assess_contract_risk`, unfolded. -/
lemma assess_likelihood_eq (title ct : String) (value : ℤ) (b : ℕ)
    (pick : Bool) :
    (assess_contract_risk title ct value b pick).likelihood =
      (likelihoodImpact (baseRisk title ct value b) pick).1 := rfl

/-- The impact field of `assess_contract_risk`, unfolded. -/
lemma assess_impact_eq (title ct : String) (value : ℤ) (b : ℕ)
    (pick : Bool) :
    (assess_contract_risk title ct value b pick).impact =
      (likelihoodImpact (baseRisk title ct value b) pick).2 := rfl

/-- The score field of `assess_contract_risk`, unfolded. -/
lemma assess_score_eq (title ct : String) (value : ℤ) (b : ℕ)
    (pick : Bool) :
    (assess_contract_risk title ct value b pick).score =
      riskMapping (likelihoodImpact (baseRisk title ct value b) pick).1 *
        riskMapping (likelihoodImpact (baseRisk title ct value b) pick).2 := rfl

/-- The complexity field of `assess_contract_risk`, unfolded. -/
lemma assess_complexity_eq (title ct : String) (value : ℤ) (b : ℕ)
    (pick : Bool) :
    (assess_contract_risk title ct value b pick).complexity =
      if 1.2 < complexityFactor title then "High"
      else if 1.2 < typeRisk ct then "Medium"
      else "Low" := rfl

/-- C1: for every title, contract type, estimated value, bidder count and
impact draw, the risk score equals the product of the ranks of the likelihood
and impact tiers (ranks: Low 1, Medium 2, High 3, Very High 4), and the score
lies in the set of rank products that the specification lists. -/
theorem risk_score_is_rank_product (title ct : String) (value : ℤ) (b : ℕ)
    (pick : Bool) :
    (assess_contract_risk title ct value b pick).score =
        riskMapping (assess_contract_risk title ct value b pick).likelihood *
          riskMapping (assess_contract_risk title ct value b pick).impact ∧
      (assess_contract_risk title ct value b pick).score ∈
        [1, 2, 3, 4, 6, 8, 9, 12, 16] := by
  refine ⟨rfl, ?_⟩
  have h := likelihoodImpact_mem (baseRisk title ct value b) pick
  rw [assess_score_eq]
  simp only [List.mem_cons, List.not_mem_nil, or_false] at h
  rcases h with h | h | h | h | h | h | h | h <;> rw [h] <;> decide

/-- C10: the sampled impact is confined to a two-element pool determined by the
likelihood tier, so the score only takes the values 1, 2, 4, 6, 9, 12, 16; in
particular the scores 3 and 8 are never produced. -/
theorem risk_impact_conditioned_on_likelihood (title ct : String) (value : ℤ)
    (b : ℕ) (pick : Bool) :
    (assess_contract_risk title ct value b pick).impact ∈
        allowedImpacts (assess_contract_risk title ct value b pick).likelihood ∧
      (assess_contract_risk title ct value b pick).score ∈
        [1, 2, 4, 6, 9, 12, 16] ∧
      (assess_contract_risk title ct value b pick).score ≠ 3 ∧
      (assess_contract_risk title ct value b pick).score ≠ 8 := by
  have h := likelihoodImpact_mem (baseRisk title ct value b) pick
  rw [assess_impact_eq, assess_likelihood_eq, assess_score_eq]
  simp only [List.mem_cons, List.not_mem_nil, or_false] at h
  rcases h with h | h | h | h | h | h | h | h <;> rw [h] <;> decide

/-- C5: the base risk number is the sum of the value-based and
competition-based sub-scores scaled by the category-risk factor and the
complexity factor, and the likelihood tier is assigned from it by the fixed
thresholds 3, 6 and 9. -/
theorem likelihood_from_base_risk_thresholds (title ct : String) (value : ℤ)
    (b : ℕ) (pick : Bool) :
    baseRisk title ct value b =
        (valueRisk value + competitionRisk b) * typeRisk ct *
          complexityFactor title ∧
      (assess_contract_risk title ct value b pick).likelihood =
        if baseRisk title ct value b ≤ 3 then "Low"
        else if baseRisk title ct value b ≤ 6 then "Medium"
        else if baseRisk title ct value b ≤ 9 then "High"
        else "Very High" := by
  refine ⟨rfl, ?_⟩
  rw [assess_likelihood_eq]
  unfold likelihoodImpact
  split_ifs <;> rfl

/-- C6: the complexity tier is `High` exactly when the complexity factor
exceeds 1.2 — equivalently, when the uppercased title contains one of the
high-risk keywords — else `Medium` when the category-risk factor exceeds 1.2,
else `Low`. -/
theorem complexity_tier_rule (title ct : String) (value : ℤ) (b : ℕ)
    (pick : Bool) :
    ((1.2 : ℚ) < complexityFactor title ↔
        complexity_keywords.any (fun k => pyIn k (pyUpper title)) = true) ∧
      (assess_contract_risk title ct value b pick).complexity =
        if (1.2 : ℚ) < complexityFactor title then "High"
        else if (1.2 : ℚ) < typeRisk ct then "Medium"
        else "Low" := by
  refine ⟨?_, assess_complexity_eq title ct value b pick⟩
  constructor
  · intro hlt
    by_contra hc
    unfold complexityFactor at hlt
    rw [if_neg hc] at hlt
    norm_num at hlt
  · intro hc
    unfold complexityFactor
    rw [if_pos hc]
    norm_num

/-- The category loop is a first-match search over the ordered table. -/
lemma findCategory_eq_find (titleUpper : String)
    (l : List (String × List String)) :
    findCategory titleUpper l =
      match l.find? (fun p => categoryMatches p.2 titleUpper) with
      | some p => p.1
      | none => "Other" := by
  induction l with
  | nil => rfl
  | cons a rest ih =>
    obtain ⟨c, kws⟩ := a
    simp only [findCategory, List.find?]
    by_cases h : categoryMatches kws titleUpper = true
    · rw [if_pos h, h]
    · have hf : categoryMatches kws titleUpper = false := by
        cases hcm : categoryMatches kws titleUpper
        · rfl
        · exact absurd hcm h
      rw [if_neg h, hf]
      exact ih

/-- If an entry matches and every entry with a different category name does
not, the loop returns that entry's category. -/
lemma findCategory_of_unique_match (titleUpper : String)
    (l : List (String × List String)) (p : String × List String)
    (hp : p ∈ l) (hm : categoryMatches p.2 titleUpper = true)
    (hu : ∀ q ∈ l, q.1 ≠ p.1 → categoryMatches q.2 titleUpper = false) :
    findCategory titleUpper l = p.1 := by
  induction l with
  | nil => cases hp
  | cons a rest ih =>
    obtain ⟨c, kws⟩ := a
    by_cases h : categoryMatches kws titleUpper = true
    · simp only [findCategory, if_pos h]
      by_contra hne
      have hfalse := hu (c, kws) (List.mem_cons_self _ _) hne
      rw [hfalse] at h
      cases h
    · simp only [findCategory, if_neg h]
      rcases List.mem_cons.mp hp with rfl | hp2
      · exact absurd hm h
      · exact ih hp2 fun q hq hne => hu q (List.mem_cons_of_mem _ hq) hne

/-- C2: `categorize_contract_type` returns the first category of the declared
table whose keyword set hits the uppercased title; if none hits it returns
`Other`; in particular a title matched by exactly one category's keyword set
is assigned that category. -/
theorem categorize_first_match (title : String) :
    (categorize_contract_type title =
        match categories.find? (fun p => categoryMatches p.2 (pyUpper title)) with
        | some p => p.1
        | none => "Other") ∧
      ((∀ p ∈ categories, categoryMatches p.2 (pyUpper title) = false) →
        categorize_contract_type title = "Other") ∧
      (∀ p ∈ categories, categoryMatches p.2 (pyUpper title) = true →
        (∀ q ∈ categories, q.1 ≠ p.1 →
          categoryMatches q.2 (pyUpper title) = false) →
        categorize_contract_type title = p.1) := by
  refine ⟨findCategory_eq_find (pyUpper title) categories, ?_, ?_⟩
  · intro hnone
    unfold categorize_contract_type
    rw [findCategory_eq_find, List.find?_eq_none.mpr]
    intro p hp
    rw [hnone p hp]
    exact Bool.false_ne_true
  · intro p hp hm hu
    exact findCategory_of_unique_match (pyUpper title) categories p hp hm hu

/-- Witness for C2 at the title `CARTRIDGE`: only the `Ammunition` keyword set
matches, and the classifier returns `Ammunition`. -/
theorem categorize_first_match_witness :
    categorize_contract_type "CARTRIDGE" = "Ammunition" :=
  (categorize_first_match "CARTRIDGE").2.2
    ("Ammunition", ["CARTRIDGE", "PROJECTILE", "MORTAR", "BOMBS", "MUNITION"])
    (by decide) (by decide) (by decide)

/-- The complexity factor of the title `MORTAR` is 1 (no high-risk keyword). -/
lemma complexityFactor_mortar : complexityFactor "MORTAR" = 1 := by
  unfold complexityFactor
  rw [if_neg]
  · norm_num
  · decide

/-- The category-risk factor of `Ammunition` is 1.1. -/
lemma typeRisk_ammunition : typeRisk "Ammunition" = 1.1 := by
  unfold typeRisk
  rw [if_neg (by decide), if_neg (by decide), if_neg (by decide),
    if_neg (by decide), if_pos rfl]

/-- C8 counterexample: the title `MORTAR` has no high-complexity keyword
(complexity factor 1), the category `Ammunition` has category-risk factor 1.1,
strictly between 1 and 1.2 — yet the complexity tier of the assessment is
`Low`, not `Medium` as the claim states. -/
theorem complexity_between_counterexample :
    complexityFactor "MORTAR" = 1 ∧
      (1 : ℚ) < typeRisk "Ammunition" ∧ typeRisk "Ammunition" < 1.2 ∧
      (assess_contract_risk "MORTAR" "Ammunition" 1000000 3 true).complexity =
        "Low" ∧
      (assess_contract_risk "MORTAR" "Ammunition" 1000000 3 true).complexity ≠
        "Medium" := by
  have h1 := complexityFactor_mortar
  have h2 := typeRisk_ammunition
  have hc : (assess_contract_risk "MORTAR" "Ammunition" 1000000 3
      true).complexity = "Low" := by
    rw [assess_complexity_eq, h1, h2, if_neg (by norm_num), if_neg (by norm_num)]
  refine ⟨h1, by rw [h2]; norm_num, by rw [h2]; norm_num, hc, ?_⟩
  rw [hc]
  decide

/-- C8 amended: when the title has no high-complexity keyword (complexity
factor 1) and the category-risk factor is strictly between 1 and 1.2, the
complexity tier returned by `assess_contract_risk` is `Low`. -/
theorem complexity_between_is_low (title ct : String) (value : ℤ) (b : ℕ)
    (pick : Bool) (h1 : complexityFactor title = 1)
    (h2 : (1 : ℚ) < typeRisk ct) (h3 : typeRisk ct < 1.2) :
    (assess_contract_risk title ct value b pick).complexity = "Low" := by
  rw [assess_complexity_eq, h1, if_neg (by norm_num),
    if_neg (not_lt.mpr h3.le)]

/-- Witness for the amended C8 at `MORTAR` / `Ammunition`. -/
theorem complexity_between_is_low_witness :
    (assess_contract_risk "MORTAR" "Ammunition" 1000000 3 true).complexity =
      "Low" :=
  complexity_between_is_low "MORTAR" "Ammunition" 1000000 3 true
    complexityFactor_mortar
    (by rw [typeRisk_ammunition]; norm_num)
    (by rw [typeRisk_ammunition]; norm_num)

/-- C3 counterexample: a 4-cell row with a single non-empty cell (the title)
has fewer than 4 non-empty cells, yet `extract_contract_details` returns a
record rather than `None` — the source only checks the total cell count. -/
theorem short_nonempty_row_counterexample :
    countNonEmptyCells [none, some "WIDGET", none, none] < 4 ∧
      extract_contract_details [none, some "WIDGET", none, none] 2024 1 true ≠
        none := by
  refine ⟨by decide, Option.ne_none_iff_isSome.mpr ?_⟩
  decide

/-- C3 amended: a row with fewer than 4 cells in total yields no record. -/
theorem short_row_returns_none (row : List (Option String)) (file_year : ℕ)
    (v : ℚ) (pick : Bool) (h : row.length < 4) :
    extract_contract_details row file_year v pick = none := by
  simp only [extract_contract_details, List.length_map]
  rw [if_pos h]

/-- Witness for the amended C3 at a 3-cell row. -/
theorem short_row_returns_none_witness :
    extract_contract_details [some "a", some "b", some "c"] 2024 1 true =
      none :=
  short_row_returns_none [some "a", some "b", some "c"] 2024 1 true (by decide)

/-- C9: `extract_contract_details` is modelled as a total `Option`-valued
function — every failure path of the source, including the blanket `except`
handler, returns `None` — and in the data-row loop of
`parse_nspa_contract_data` a row whose extraction yields `None` is skipped
while the processing of the remaining rows is unchanged. -/
theorem none_row_skipped_batch_continues
    (rnd : List (Option String) → ℚ × Bool) (file_year : ℕ)
    (pre post : List (List (Option String))) (bad : List (Option String))
    (h : extract_contract_details bad file_year (rnd bad).1 (rnd bad).2 =
      none) :
    processDataRows rnd file_year (pre ++ bad :: post) =
      processDataRows rnd file_year (pre ++ post) := by
  induction pre with
  | nil =>
    simp only [List.nil_append]
    by_cases hb : bad.length < 4
    · simp only [processDataRows, if_pos hb]
    · simp only [processDataRows, if_neg hb]
      rw [h]
  | cons r pre ih =>
    simp only [List.cons_append, processDataRows]
    by_cases hr : r.length < 4
    · simp only [if_pos hr]
      exact ih
    · simp only [if_neg hr]
      cases hx : extract_contract_details r file_year (rnd r).1 (rnd r).2 with
      | none => exact ih
      | some c => exact congrArg (List.cons c) ih

/-- Witness for C9: a batch whose only row is a header-styled row (which
extraction rejects) produces the same output as the empty batch. -/
theorem none_row_skipped_batch_continues_witness :
    processDataRows (fun _ => ((1 : ℚ), true)) 2024
        [[some "x", some "RFP TITLE", some "d", some "c"]] =
      processDataRows (fun _ => ((1 : ℚ), true)) 2024 [] :=
  none_row_skipped_batch_continues (fun _ => ((1 : ℚ), true)) 2024 [] []
    [some "x", some "RFP TITLE", some "d", some "c"] (by decide)

/-- A running-maximum fold with a filter condition equals the maximum of the
accumulator and the fold over the filtered values. -/
lemma foldl_if_max_eq (f : String × ℕ → Bool) (l : List (String × ℕ))
    (acc : ℕ) :
    l.foldl (fun a p => if f p then max a p.2 else a) acc =
      max acc (((l.filter f).map Prod.snd).foldr max 0) := by
  induction l generalizing acc with
  | nil => simp
  | cons p rest ih =>
    by_cases h : f p = true
    · simp only [List.foldl_cons, List.filter_cons, h, if_true, List.map_cons,
        List.foldr_cons, ih]
      exact max_assoc acc p.2 _
    · have hf : f p = false := by
        cases hfp : f p
        · rfl
        · exact absurd hfp h
      simp [List.foldl_cons, List.filter_cons, hf, ih]

/-- Every member of a list of naturals is at most its `foldr max 0`. -/
lemma le_foldr_max (l : List ℕ) (x : ℕ) (hx : x ∈ l) : x ≤ l.foldr max 0 := by
  induction l with
  | nil => cases hx
  | cons a rest ih =>
    simp only [List.foldr_cons]
    rcases List.mem_cons.mp hx with rfl | h2
    · exact le_max_left _ _
    · exact le_trans (ih h2) (le_max_right _ _)

/-- Every multiplier in the table is at least 1. -/
lemma one_le_filtered_multiplier {f : String × ℕ → Bool} {a : ℕ}
    (ha : a ∈ (multipliers.filter f).map Prod.snd) : 1 ≤ a := by
  rcases List.mem_map.mp ha with ⟨p, hp, rfl⟩
  have hpm : p ∈ multipliers := (List.mem_filter.mp hp).1
  have hall : ∀ q ∈ multipliers, 1 ≤ q.2 := by decide
  exact hall p hpm

/-- The source's running-maximum scan agrees with the specification's
"maximum matching multiplier, 1 if none matches". -/
lemma contractMultiplier_eq_spec (title : String) :
    contractMultiplier title = specMaxMultiplier title := by
  unfold contractMultiplier specMaxMultiplier
  rw [foldl_if_max_eq]
  cases hm : (multipliers.filter
      (fun p => pyIn p.1 (pyUpper title))).map Prod.snd with
  | nil => simp
  | cons a rest =>
    have ha : a ∈ (multipliers.filter
        (fun p => pyIn p.1 (pyUpper title))).map Prod.snd := by
      rw [hm]; exact List.mem_cons_self _ _
    have h1 : 1 ≤ ((a :: rest).foldr max 0) :=
      le_trans (one_le_filtered_multiplier ha)
        (le_foldr_max _ _ (List.mem_cons_self _ _))
    rw [if_neg (by simp)]
    exact max_eq_right h1

/-- C4: the estimate is `⌊1000000 * m * v⌋` where `m` is the maximum matching
multiplier of the keyword table (1 when none matches) and `v` the random draw
from [0.7, 1.5]; consequently the estimate lies between `700000 * m` and
`1500000 * m`. -/
theorem estimate_formula_and_bounds (title ct : String) (v : ℚ)
    (hv1 : (0.7 : ℚ) ≤ v) (hv2 : v ≤ 1.5) :
    estimate_contract_value title ct v =
        ⌊(1000000 : ℚ) * specMaxMultiplier title * v⌋ ∧
      (700000 * specMaxMultiplier title : ℤ) ≤
        estimate_contract_value title ct v ∧
      estimate_contract_value title ct v ≤
        1500000 * specMaxMultiplier title := by
  have hmu := contractMultiplier_eq_spec title
  have hv1' : (7 / 10 : ℚ) ≤ v := by
    have : (0.7 : ℚ) = 7 / 10 := by norm_num
    rwa [this] at hv1
  have hv2' : v ≤ (3 / 2 : ℚ) := by
    have : (1.5 : ℚ) = 3 / 2 := by norm_num
    rwa [this] at hv2
  unfold estimate_contract_value
  rw [← hmu]
  have h0 : (0 : ℚ) ≤ (1000000 : ℚ) * (contractMultiplier title : ℚ) := by
    positivity
  refine ⟨rfl, ?_, ?_⟩
  · rw [Int.le_floor]
    push_cast
    calc (700000 : ℚ) * (contractMultiplier title : ℚ)
        = 1000000 * (contractMultiplier title : ℚ) * (7 / 10) := by ring
      _ ≤ 1000000 * (contractMultiplier title : ℚ) * v :=
        mul_le_mul_of_nonneg_left hv1' h0
  · have hle : (1000000 : ℚ) * (contractMultiplier title : ℚ) * v ≤
        ((1500000 * contractMultiplier title : ℤ) : ℚ) := by
      push_cast
      calc (1000000 : ℚ) * (contractMultiplier title : ℚ) * v
          ≤ 1000000 * (contractMultiplier title : ℚ) * (3 / 2) :=
            mul_le_mul_of_nonneg_left hv2' h0
        _ = 1500000 * (contractMultiplier title : ℚ) := by ring
    calc ⌊(1000000 : ℚ) * (contractMultiplier title : ℚ) * v⌋
        ≤ ⌊((1500000 * contractMultiplier title : ℤ) : ℚ)⌋ := Int.floor_mono hle
      _ = 1500000 * contractMultiplier title := Int.floor_intCast _

/-- Witness for C4 at the title `SATELLITE LINK` (multiplier 50) and the
draw v = 1. -/
theorem estimate_formula_and_bounds_witness :
    estimate_contract_value "SATELLITE LINK" "Communications" 1 =
        ⌊(1000000 : ℚ) * specMaxMultiplier "SATELLITE LINK" * 1⌋ ∧
      (700000 * specMaxMultiplier "SATELLITE LINK" : ℤ) ≤
        estimate_contract_value "SATELLITE LINK" "Communications" 1 ∧
      estimate_contract_value "SATELLITE LINK" "Communications" 1 ≤
        1500000 * specMaxMultiplier "SATELLITE LINK" :=
  estimate_formula_and_bounds "SATELLITE LINK" "Communications" 1
    (by norm_num) (by norm_num)

/-- C7: for a fixed random draw, the estimate is monotone in the applied
multiplier. -/
theorem estimate_monotone_in_multiplier (titleA titleB ctA ctB : String)
    (v : ℚ) (hv1 : (0.7 : ℚ) ≤ v) (hv2 : v ≤ 1.5)
    (hm : contractMultiplier titleB ≤ contractMultiplier titleA) :
    estimate_contract_value titleB ctB v ≤
      estimate_contract_value titleA ctA v := by
  unfold estimate_contract_value
  apply Int.floor_mono
  have hv : (0 : ℚ) ≤ v := le_trans (by norm_num) hv1
  have hmq : (contractMultiplier titleB : ℚ) ≤
      (contractMultiplier titleA : ℚ) := by exact_mod_cast hm
  exact mul_le_mul_of_nonneg_right
    (mul_le_mul_of_nonneg_left hmq (by norm_num)) hv

/-- Witness for C7: multiplier 3 (`MEDICAL KIT`) against multiplier 50
(`SATELLITE LINK`) at the draw v = 1. -/
theorem estimate_monotone_in_multiplier_witness :
    estimate_contract_value "MEDICAL KIT" "Medical_Equipment" 1 ≤
      estimate_contract_value "SATELLITE LINK" "Communications" 1 :=
  estimate_monotone_in_multiplier "SATELLITE LINK" "MEDICAL KIT"
    "Communications" "Medical_Equipment" 1 (by norm_num) (by norm_num)
    (by decide)

end NSPA
